import Mathlib

/-!
Verification of the Apache Druid database handler
(`mindsdb/integrations/handlers/druid_handler/druid_handler.py`).

The handler is a thin connection-lifecycle manager plus a raw query
executor over the external pydruid driver.  We embed it shallowly:

* configuration dictionaries become association lists of `CValue`s;
* the external driver (pydruid's `connect`, cursors, `commit`) becomes an
  abstract `Driver` record giving the outcome of every external call,
  with Python exceptions modelled as `Except String`;
* each handler method becomes a Lean function from handler state to a
  `StepResult`: the returned value (or the raised, uncaught exception),
  the new handler state, and a trace of the external calls performed.
-/

/-- A value stored in the `connection_data` dictionary (`None`, strings,
integers). -/
inductive CValue where
  | null
  | str (s : String)
  | int (n : Int)
deriving DecidableEq, Repr

/-- `cd[k] = v` executed under the guard `if k not in cd`: insertion-ordered
dictionary update that appends only when the key is absent. -/
def setIfAbsent (cd : List (String × CValue)) (k : String) (v : CValue) :
    List (String × CValue) :=
  if (List.lookup k cd).isSome then cd else cd ++ [(k, v)]

/-- The defaulting performed by `DruidHandler.__init__` on the supplied
`connection_data`: absent `user`/`password` become `None`, absent `path`
becomes `/druid/v2/sql/`, absent `scheme` becomes `http`. -/
def initConnectionData (connection_data : List (String × CValue)) :
    List (String × CValue) :=
  let cd := setIfAbsent connection_data "user" CValue.null
  let cd := setIfAbsent cd "password" CValue.null
  let cd := setIfAbsent cd "path" (CValue.str "/druid/v2/sql/")
  setIfAbsent cd "scheme" (CValue.str "http")

/-- One external call observable in a handler method's execution. -/
inductive Event where
  | openCall
  | executeCall
  | fetchallCall
  | commitCall
  | connCloseCall
  | cursorCloseCall
deriving DecidableEq, BEq, Repr

/-- Behaviour of a cursor for one query string: the outcome of
`cursor.execute`, of `cursor.fetchall`, and the column descriptors
`cursor.description` (first component = column name, the rest of each
descriptor tuple abstracted as a list). -/
structure CursorBehavior where
  executeRes : Except String Unit
  fetchallRes : Except String (List (List String))
  descr : List (String × List String)

/-- The external pydruid driver: the outcome of
`connect(host=..., port=..., path=..., scheme=..., user=..., password=...)`
applied to the stored configuration (a fresh handle id on success, a
raised exception on failure), the cursor behaviour for each query text,
and the outcome of `connection.commit()`. -/
structure Driver where
  openConn : List (String × CValue) → Except String Nat
  cursor : String → CursorBehavior
  commitRes : Except String Unit

/-- The mutable state of a `DruidHandler` instance: the stored
configuration, `self.connection` and `self.is_connected`. -/
structure HState where
  connection_data : List (String × CValue)
  connection : Option Nat
  is_connected : Bool
deriving DecidableEq, Repr

/-- Result of running one handler method: the returned value (`Except.ok`)
or the uncaught exception that escaped it (`Except.error`), the handler
state afterwards, and the trace of external calls made. -/
structure StepResult (α : Type) where
  res : Except String α
  state : HState
  trace : List Event
deriving Repr

/-- `HandlerStatusResponse`: a success flag plus an optional error
message (the constructor `StatusResponse(False)` leaves the message
unset). -/
structure StatusResponse where
  success : Bool
  error_message : Option String := none
deriving DecidableEq, Repr

/-- `RESPONSE_TYPE` tags of a `HandlerResponse`. -/
inductive RESPONSE_TYPE where
  | TABLE
  | OK
  | ERROR
deriving DecidableEq, Repr

/-- A pandas data frame as the handler uses it: ordered column names and
rows of cells. -/
structure DataFrame where
  columns : List String
  rows : List (List String)
deriving DecidableEq, Repr

/-- `HandlerResponse`: a response type tag with optional data frame and
optional error message, mirroring the keyword-argument constructor. -/
structure Response where
  resp_type : RESPONSE_TYPE
  data_frame : Option DataFrame := none
  error_message : Option String := none
deriving DecidableEq, Repr

namespace DruidHandler

/-- `DruidHandler.connect`: if `self.is_connected` return `self.connection`;
otherwise call the external driver's open on the stored configuration,
store the handle and set `is_connected` on success; a raised exception
propagates and leaves the state untouched. -/
def connect (d : Driver) (s : HState) : StepResult (Option Nat) :=
  if s.is_connected then
    { res := Except.ok s.connection, state := s, trace := [] }
  else
    match d.openConn s.connection_data with
    | Except.error e =>
        { res := Except.error e, state := s, trace := [Event.openCall] }
    | Except.ok h =>
        { res := Except.ok (some h),
          state := { s with connection := some h, is_connected := true },
          trace := [Event.openCall] }

/-- `DruidHandler.disconnect`: no-op when not connected, otherwise close
the handle and clear `is_connected` (the stored `self.connection` object
is kept). -/
def disconnect (s : HState) : HState × List Event :=
  if s.is_connected = false then (s, [])
  else ({ s with is_connected := false }, [Event.connCloseCall])

/-- `DruidHandler.check_connection`: probe by calling `connect` inside a
try/except; on success set `success := True`, on exception record its
message; in the `finally` block disconnect when the probe opened the
connection, and force `is_connected := False` when the probe failed while
the flag was set. -/
def check_connection (d : Driver) (s : HState) :
    StatusResponse × HState × List Event :=
  let need_to_close := s.is_connected = false
  let c := connect d s
  match c.res with
  | Except.ok _ =>
      let p := if need_to_close then disconnect c.state else (c.state, [])
      ({ success := true }, p.1, c.trace ++ p.2)
  | Except.error e =>
      let s2 :=
        if c.state.is_connected then { c.state with is_connected := false }
        else c.state
      ({ success := false, error_message := some e }, s2, c.trace)

/-- The try/except suite of `native_query`: execute, fetch, and either
build a `TABLE` response from the fetched rows and the column names
(first element of each descriptor), or commit and build an `OK`
response; any exception raised inside becomes an `ERROR` response
carrying its message.  Returns the response together with the trace of
cursor/connection calls made inside the block. -/
def tryBlock (d : Driver) (cb : CursorBehavior) : Response × List Event :=
  match cb.executeRes with
  | Except.error e =>
      (({ resp_type := RESPONSE_TYPE.ERROR, error_message := some e } : Response),
       [Event.executeCall])
  | Except.ok _ =>
      match cb.fetchallRes with
      | Except.error e =>
          (({ resp_type := RESPONSE_TYPE.ERROR, error_message := some e } : Response),
           [Event.executeCall, Event.fetchallCall])
      | Except.ok result =>
          if result.isEmpty then
            match d.commitRes with
            | Except.error e =>
                (({ resp_type := RESPONSE_TYPE.ERROR, error_message := some e } : Response),
                 [Event.executeCall, Event.fetchallCall, Event.commitCall])
            | Except.ok _ =>
                (({ resp_type := RESPONSE_TYPE.OK } : Response),
                 [Event.executeCall, Event.fetchallCall, Event.commitCall])
          else
            (({ resp_type := RESPONSE_TYPE.TABLE,
                data_frame := some { columns := cb.descr.map (fun x => x.1),
                                     rows := result } } : Response),
             [Event.executeCall, Event.fetchallCall])

/-- `DruidHandler.native_query`: remember whether this call must close the
connection, connect (exceptions here escape), create a cursor, then in a
try/except execute the query and fetch: a non-empty result becomes a
`TABLE` response whose frame has the fetched rows and the first element
of each column descriptor as column names; an empty result triggers
`connection.commit()` and an `OK` response; any exception in the try
block becomes an `ERROR` response carrying the exception's message.
Afterwards close the cursor and, when the call owned the connection,
disconnect. -/
def native_query (d : Driver) (s : HState) (query : String) :
    StepResult Response :=
  let need_to_close := s.is_connected = false
  let c := connect d s
  match c.res with
  | Except.error e => { res := Except.error e, state := c.state, trace := c.trace }
  | Except.ok _ =>
      let re := tryBlock d (d.cursor query)
      let p := if need_to_close then disconnect c.state else (c.state, [])
      { res := Except.ok re.1,
        state := p.1,
        trace := c.trace ++ re.2 ++ [Event.cursorCloseCall] ++ p.2 }

end DruidHandler

/-- The literal metadata query text built by `get_tables`. -/
def tablesQuery : String :=
  "\n            SELECT *\n            FROM INFORMATION_SCHEMA.TABLES\n        "

/-- `df[[c1, ..., cn]]`: project a data frame to the named columns, in the
given order; `none` models the `KeyError` pandas raises when a requested
column is missing. -/
def DataFrame.selectCols (df : DataFrame) (cs : List String) : Option DataFrame :=
  if cs.all (fun c => df.columns.contains c) then
    some { columns := cs,
           rows := df.rows.map (fun r =>
             cs.map (fun c =>
               match df.columns.findIdx? (fun x => x == c) with
               | some i => r.getD i ""
               | none => "")) }
  else none

/-- `df.rename(columns=m)`: rename the columns listed in the mapping,
leaving the others unchanged. -/
def DataFrame.renameCols (df : DataFrame) (m : List (String × String)) : DataFrame :=
  { df with columns := df.columns.map (fun c => (m.lookup c).getD c) }

namespace DruidHandler

/-- `DruidHandler.get_tables`: run the fixed metadata query through
`native_query`, subscript the response's `data_frame` down to
`TABLE_NAME`/`TABLE_TYPE` and rename them.  When the response carries no
data frame (`ERROR` or `OK` responses leave `data_frame` as `None`),
the subscript `df[[...]]` raises a `TypeError`, which escapes. -/
def get_tables (d : Driver) (s : HState) : StepResult Response :=
  let r := native_query d s tablesQuery
  match r.res with
  | Except.error e => { res := Except.error e, state := r.state, trace := r.trace }
  | Except.ok result =>
      match result.data_frame with
      | none =>
          { res := Except.error "TypeError: NoneType object is not subscriptable",
            state := r.state, trace := r.trace }
      | some df =>
          match df.selectCols ["TABLE_NAME", "TABLE_TYPE"] with
          | none => { res := Except.error "KeyError", state := r.state, trace := r.trace }
          | some df2 =>
              { res := Except.ok
                  { result with
                    data_frame := some (df2.renameCols
                      [("TABLE_NAME", "table_name"), ("TABLE_TYPE", "table_type")]) },
                state := r.state, trace := r.trace }

end DruidHandler

/-! ## Helper lemmas about `connect` -/

theorem connect_of_connected (d : Driver) (s : HState)
    (h : s.is_connected = true) :
    DruidHandler.connect d s =
      { res := Except.ok s.connection, state := s, trace := [] } := by
  simp [DruidHandler.connect, h]

theorem connect_of_open_ok (d : Driver) (s : HState) (hd : Nat)
    (hdis : s.is_connected = false)
    (hopen : d.openConn s.connection_data = Except.ok hd) :
    DruidHandler.connect d s =
      { res := Except.ok (some hd),
        state := { s with connection := some hd, is_connected := true },
        trace := [Event.openCall] } := by
  simp [DruidHandler.connect, hdis, hopen]

theorem connect_of_open_error (d : Driver) (s : HState) (e : String)
    (hdis : s.is_connected = false)
    (hopen : d.openConn s.connection_data = Except.error e) :
    DruidHandler.connect d s =
      { res := Except.error e, state := s, trace := [Event.openCall] } := by
  simp [DruidHandler.connect, hdis, hopen]

/-! ## Concrete fixtures used by witnesses and counterexamples -/

/-- A configuration holding only `host` and `port`. -/
def hostPortConfig : List (String × CValue) :=
  [("host", CValue.str "localhost"), ("port", CValue.int 8888)]

/-- A freshly initialized, disconnected handler state. -/
def sDis : HState :=
  { connection_data := hostPortConfig, connection := none, is_connected := false }

/-- A handler state whose connection is open. -/
def sCon : HState :=
  { connection_data := hostPortConfig, connection := some 7, is_connected := true }

/-- A driver whose open succeeds and whose queries return one row. -/
def dRows : Driver :=
  { openConn := fun _ => Except.ok 0,
    cursor := fun _ =>
      { executeRes := Except.ok (),
        fetchallRes := Except.ok [["t1", "TABLE"]],
        descr := [("TABLE_NAME", []), ("TABLE_TYPE", [])] },
    commitRes := Except.ok () }

/-- A driver whose open succeeds and whose queries raise on execute. -/
def dExecErr : Driver :=
  { openConn := fun _ => Except.ok 0,
    cursor := fun _ =>
      { executeRes := Except.error "boom",
        fetchallRes := Except.ok [],
        descr := [] },
    commitRes := Except.ok () }

/-- A driver whose open succeeds and whose queries return no rows. -/
def dEmpty : Driver :=
  { openConn := fun _ => Except.ok 0,
    cursor := fun _ =>
      { executeRes := Except.ok (),
        fetchallRes := Except.ok [],
        descr := [] },
    commitRes := Except.ok () }

/-- A driver whose open raises. -/
def dOpenErr : Driver :=
  { openConn := fun _ => Except.error "no route to host",
    cursor := fun _ =>
      { executeRes := Except.ok (),
        fetchallRes := Except.ok [],
        descr := [] },
    commitRes := Except.ok () }

/-! ## Claim theorems -/

/-- C3: if `native_query` is invoked while disconnected and the driver's
open call raises during the implicit connect, the exception propagates
to the caller (no `Error` envelope) and `is_connected` stays `false`. -/
theorem C3_native_query_connect_error_propagates (d : Driver) (s : HState)
    (q e : String)
    (hdis : s.is_connected = false)
    (hopen : d.openConn s.connection_data = Except.error e) :
    (DruidHandler.native_query d s q).res = Except.error e ∧
    (DruidHandler.native_query d s q).state.is_connected = false := by
  simp [DruidHandler.native_query, connect_of_open_error d s e hdis hopen, hdis]

/-- C3 witness: a concrete failing open. -/
theorem C3_witness :
    (DruidHandler.native_query dOpenErr sDis "SELECT 1").res =
      Except.error "no route to host" ∧
    (DruidHandler.native_query dOpenErr sDis "SELECT 1").state.is_connected = false :=
  C3_native_query_connect_error_propagates dOpenErr sDis "SELECT 1"
    "no route to host" rfl rfl

/-- C4: a `native_query` call starting Disconnected whose implicit connect
succeeds ends Disconnected (whatever response the query produced), and a
call starting Connected ends Connected. -/
theorem C4_native_query_frame_effect (d : Driver) (s : HState) (q : String) :
    (s.is_connected = false →
      (∃ hd, d.openConn s.connection_data = Except.ok hd) →
      (DruidHandler.native_query d s q).state.is_connected = false) ∧
    (s.is_connected = true →
      (DruidHandler.native_query d s q).state.is_connected = true) := by
  constructor
  · rintro hdis ⟨hd, hopen⟩
    simp [DruidHandler.native_query, connect_of_open_ok d s hd hdis hopen, hdis,
      DruidHandler.disconnect]
  · intro hcon
    simp [DruidHandler.native_query, connect_of_connected d s hcon, hcon]

/-- C4 witness: implicit connect on a concrete disconnected state leaves
the handler disconnected, and a concrete connected state stays connected. -/
theorem C4_witness :
    (DruidHandler.native_query dRows sDis "SELECT 1").state.is_connected = false ∧
    (DruidHandler.native_query dRows sCon "SELECT 1").state.is_connected = true :=
  ⟨(C4_native_query_frame_effect dRows sDis "SELECT 1").1 rfl ⟨0, rfl⟩,
   (C4_native_query_frame_effect dRows sCon "SELECT 1").2 rfl⟩

/-- C8: `connect` twice from a disconnected state opens exactly one
handle: the second call returns the same handle, the state is unchanged
by the second call, and the driver's open is called once in total. -/
theorem C8_connect_idempotent (d : Driver) (s : HState) (hd : Nat)
    (hdis : s.is_connected = false)
    (hopen : d.openConn s.connection_data = Except.ok hd) :
    (DruidHandler.connect d (DruidHandler.connect d s).state).res =
      (DruidHandler.connect d s).res ∧
    (DruidHandler.connect d (DruidHandler.connect d s).state).state =
      (DruidHandler.connect d s).state ∧
    ((DruidHandler.connect d s).trace ++
      (DruidHandler.connect d (DruidHandler.connect d s).state).trace).count
        Event.openCall = 1 := by
  rw [connect_of_open_ok d s hd hdis hopen]
  rw [connect_of_connected d _ rfl]
  exact ⟨rfl, rfl, rfl⟩

/-- C8 witness: two consecutive connects on a concrete driver. -/
theorem C8_witness :
    (DruidHandler.connect dRows (DruidHandler.connect dRows sDis).state).res =
      (DruidHandler.connect dRows sDis).res ∧
    (DruidHandler.connect dRows (DruidHandler.connect dRows sDis).state).state =
      (DruidHandler.connect dRows sDis).state ∧
    ((DruidHandler.connect dRows sDis).trace ++
      (DruidHandler.connect dRows (DruidHandler.connect dRows sDis).state).trace).count
        Event.openCall = 1 :=
  C8_connect_idempotent dRows sDis 0 rfl rfl

/-- C10: `check_connection` on a Connected handler reports success with no
error message, performs no external call at all (in particular never
calls the driver's open), and leaves the state unchanged (Connected). -/
theorem C10_check_connection_connected (d : Driver) (s : HState)
    (hcon : s.is_connected = true) :
    DruidHandler.check_connection d s =
      ({ success := true, error_message := none }, s, ([] : List Event)) := by
  simp [DruidHandler.check_connection, connect_of_connected d s hcon, hcon]

/-- C10 witness: a concrete connected state. -/
theorem C10_witness :
    DruidHandler.check_connection dOpenErr sCon =
      ({ success := true, error_message := none }, sCon, ([] : List Event)) :=
  C10_check_connection_connected dOpenErr sCon rfl

/-! ## Helper lemmas about `native_query` when the connect step succeeds -/

theorem native_query_res_of_connect_ok (d : Driver) (s : HState) (q : String)
    (hconn : s.is_connected = true ∨
      ∃ hd, d.openConn s.connection_data = Except.ok hd) :
    (DruidHandler.native_query d s q).res =
      Except.ok (DruidHandler.tryBlock d (d.cursor q)).1 := by
  cases hc : s.is_connected with
  | false =>
      rcases hconn with hcon | ⟨hd, hopen⟩
      · simp [hc] at hcon
      · simp [DruidHandler.native_query, connect_of_open_ok d s hd hc hopen]
  | true => simp [DruidHandler.native_query, connect_of_connected d s hc]

theorem openCall_beq_commitCall :
    (Event.openCall == Event.commitCall) = false := rfl

theorem connCloseCall_beq_commitCall :
    (Event.connCloseCall == Event.commitCall) = false := rfl

theorem cursorCloseCall_beq_commitCall :
    (Event.cursorCloseCall == Event.commitCall) = false := rfl

theorem native_query_count_commit (d : Driver) (s : HState) (q : String)
    (hconn : s.is_connected = true ∨
      ∃ hd, d.openConn s.connection_data = Except.ok hd) :
    (DruidHandler.native_query d s q).trace.count Event.commitCall =
      (DruidHandler.tryBlock d (d.cursor q)).2.count Event.commitCall := by
  cases hc : s.is_connected with
  | false =>
      rcases hconn with hcon | ⟨hd, hopen⟩
      · simp [hc] at hcon
      · simp [DruidHandler.native_query, connect_of_open_ok d s hd hc hopen, hc,
          DruidHandler.disconnect, List.count_append, List.count_cons,
          openCall_beq_commitCall, connCloseCall_beq_commitCall,
          cursorCloseCall_beq_commitCall]
  | true =>
      simp [DruidHandler.native_query, connect_of_connected d s hc, hc,
        List.count_append, List.count_cons, cursorCloseCall_beq_commitCall]

/-! ## Remaining claim theorems -/

/-- C1: when the connection is already established (or the implicit
connect succeeds) and the cursor's execute, fetchall, or the connection's
commit raises, `native_query` returns (does not raise) an `ERROR`
response whose error message is the raised exception's message. -/
theorem C1_native_query_error_envelope (d : Driver) (s : HState) (q m : String)
    (hconn : s.is_connected = true ∨
      ∃ hd, d.openConn s.connection_data = Except.ok hd)
    (hraise :
      (d.cursor q).executeRes = Except.error m ∨
      ((d.cursor q).executeRes = Except.ok () ∧
        (d.cursor q).fetchallRes = Except.error m) ∨
      ((d.cursor q).executeRes = Except.ok () ∧
        (d.cursor q).fetchallRes = Except.ok [] ∧
        d.commitRes = Except.error m)) :
    (DruidHandler.native_query d s q).res =
      Except.ok { resp_type := RESPONSE_TYPE.ERROR, error_message := some m } := by
  rw [native_query_res_of_connect_ok d s q hconn]
  rcases hraise with h1 | ⟨h1, h2⟩ | ⟨h1, h2, h3⟩
  · simp [DruidHandler.tryBlock, h1]
  · simp [DruidHandler.tryBlock, h1, h2]
  · simp [DruidHandler.tryBlock, h1, h2, h3]

/-- C1 witness: a concrete cursor raising on execute. -/
theorem C1_witness :
    (DruidHandler.native_query dExecErr sDis "SELECT 1").res =
      Except.ok { resp_type := RESPONSE_TYPE.ERROR, error_message := some "boom" } :=
  C1_native_query_error_envelope dExecErr sDis "SELECT 1" "boom"
    (Or.inr ⟨0, rfl⟩) (Or.inl rfl)

/-- C5: a query whose execution yields a non-empty row set produces a
`TABLE` response whose column names are, in order, the first element of
each cursor column descriptor and whose rows are the fetched rows. -/
theorem C5_native_query_table (d : Driver) (s : HState) (q : String)
    (rows : List (List String))
    (hconn : s.is_connected = true ∨
      ∃ hd, d.openConn s.connection_data = Except.ok hd)
    (hexec : (d.cursor q).executeRes = Except.ok ())
    (hfetch : (d.cursor q).fetchallRes = Except.ok rows)
    (hne : rows ≠ []) :
    (DruidHandler.native_query d s q).res =
      Except.ok
        { resp_type := RESPONSE_TYPE.TABLE,
          data_frame := some
            { columns := (d.cursor q).descr.map (fun x => x.1),
              rows := rows } } := by
  rw [native_query_res_of_connect_ok d s q hconn]
  rcases rows with _ | ⟨r, rs⟩
  · exact absurd rfl hne
  · simp [DruidHandler.tryBlock, hexec, hfetch]

/-- C5 witness: a concrete one-row result. -/
theorem C5_witness :
    (DruidHandler.native_query dRows sDis "SELECT 1").res =
      Except.ok
        { resp_type := RESPONSE_TYPE.TABLE,
          data_frame := some
            { columns := ["TABLE_NAME", "TABLE_TYPE"],
              rows := [["t1", "TABLE"]] } } :=
  C5_native_query_table dRows sDis "SELECT 1" [["t1", "TABLE"]]
    (Or.inr ⟨0, rfl⟩) rfl rfl (by simp)

/-- C6: a query whose execution yields no rows triggers exactly one
commit call and produces an `OK` response with no payload. -/
theorem C6_native_query_empty_commit (d : Driver) (s : HState) (q : String)
    (hconn : s.is_connected = true ∨
      ∃ hd, d.openConn s.connection_data = Except.ok hd)
    (hexec : (d.cursor q).executeRes = Except.ok ())
    (hfetch : (d.cursor q).fetchallRes = Except.ok [])
    (hcommit : d.commitRes = Except.ok ()) :
    (DruidHandler.native_query d s q).res =
      Except.ok { resp_type := RESPONSE_TYPE.OK, data_frame := none,
                  error_message := none } ∧
    (DruidHandler.native_query d s q).trace.count Event.commitCall = 1 := by
  have htb : DruidHandler.tryBlock d (d.cursor q) =
      ({ resp_type := RESPONSE_TYPE.OK },
       [Event.executeCall, Event.fetchallCall, Event.commitCall]) := by
    simp [DruidHandler.tryBlock, hexec, hfetch, hcommit]
  refine ⟨?_, ?_⟩
  · rw [native_query_res_of_connect_ok d s q hconn, htb]
  · rw [native_query_count_commit d s q hconn, htb]
    rfl

/-- C6 witness: a concrete empty result. -/
theorem C6_witness :
    (DruidHandler.native_query dEmpty sDis "DELETE FROM t").res =
      Except.ok { resp_type := RESPONSE_TYPE.OK, data_frame := none,
                  error_message := none } ∧
    (DruidHandler.native_query dEmpty sDis "DELETE FROM t").trace.count
      Event.commitCall = 1 :=
  C6_native_query_empty_commit dEmpty sDis "DELETE FROM t"
    (Or.inr ⟨0, rfl⟩) rfl rfl rfl

/-- C7: `check_connection` on a Disconnected handler whose probe connect
succeeds reports success and leaves the handler Disconnected again. -/
theorem C7_check_connection_disconnected_probe (d : Driver) (s : HState)
    (hd : Nat)
    (hdis : s.is_connected = false)
    (hopen : d.openConn s.connection_data = Except.ok hd) :
    (DruidHandler.check_connection d s).1 =
      { success := true, error_message := none } ∧
    (DruidHandler.check_connection d s).2.1.is_connected = false := by
  simp [DruidHandler.check_connection, connect_of_open_ok d s hd hdis hopen,
    hdis, DruidHandler.disconnect]

/-- C7 witness: a concrete successful probe from a disconnected state. -/
theorem C7_witness :
    (DruidHandler.check_connection dRows sDis).1 =
      { success := true, error_message := none } ∧
    (DruidHandler.check_connection dRows sDis).2.1.is_connected = false :=
  C7_check_connection_disconnected_probe dRows sDis 0 rfl rfl

/-! ## Lookup lemmas for configuration dictionaries -/

theorem lookup_append_of_none (k : String) (l₁ l₂ : List (String × CValue))
    (h : List.lookup k l₁ = none) :
    List.lookup k (l₁ ++ l₂) = List.lookup k l₂ := by
  induction l₁ with
  | nil => simp
  | cons p t ih =>
      obtain ⟨ka, va⟩ := p
      simp only [List.lookup, List.cons_append] at h ⊢
      cases hk : (k == ka) with
      | true => simp [hk] at h
      | false => simp only [hk] at h ⊢; exact ih h

theorem lookup_append_of_some (k : String) (v : CValue)
    (l₁ l₂ : List (String × CValue))
    (h : List.lookup k l₁ = some v) :
    List.lookup k (l₁ ++ l₂) = some v := by
  induction l₁ with
  | nil => simp at h
  | cons p t ih =>
      obtain ⟨ka, va⟩ := p
      simp only [List.lookup, List.cons_append] at h ⊢
      cases hk : (k == ka) with
      | true => simp only [hk] at h ⊢; exact h
      | false => simp only [hk] at h ⊢; exact ih h

theorem lookup_setIfAbsent_of_some (cd : List (String × CValue))
    (k k' : String) (v w : CValue)
    (h : List.lookup k' cd = some w) :
    List.lookup k' (setIfAbsent cd k v) = some w := by
  unfold setIfAbsent
  split
  · exact h
  · exact lookup_append_of_some k' w cd [(k, v)] h

theorem lookup_setIfAbsent_self_of_none (cd : List (String × CValue))
    (k : String) (v : CValue)
    (h : List.lookup k cd = none) :
    List.lookup k (setIfAbsent cd k v) = some v := by
  unfold setIfAbsent
  rw [if_neg (by simp [h])]
  rw [lookup_append_of_none k cd [(k, v)] h]
  simp [List.lookup]

theorem lookup_setIfAbsent_of_ne_none (cd : List (String × CValue))
    (k k' : String) (v : CValue)
    (hne : k' ≠ k)
    (h : List.lookup k' cd = none) :
    List.lookup k' (setIfAbsent cd k v) = none := by
  unfold setIfAbsent
  split
  · exact h
  · rw [lookup_append_of_none k' cd [(k, v)] h]
    have hb : (k' == k) = false := beq_eq_false_iff_ne.mpr hne
    simp [List.lookup, hb]

/-- C9: a configuration containing `host` and `port` but none of `user`,
`password`, `path`, `scheme` gains exactly the documented defaults
(`path = /druid/v2/sql/`, `scheme = http`, `user = None`,
`password = None`), and every supplied key keeps its supplied value. -/
theorem C9_init_defaults (cd : List (String × CValue)) (hv pv : CValue)
    (hhost : List.lookup "host" cd = some hv)
    (hport : List.lookup "port" cd = some pv)
    (hu : List.lookup "user" cd = none)
    (hp : List.lookup "password" cd = none)
    (hpath : List.lookup "path" cd = none)
    (hs : List.lookup "scheme" cd = none) :
    List.lookup "user" (initConnectionData cd) = some CValue.null ∧
    List.lookup "password" (initConnectionData cd) = some CValue.null ∧
    List.lookup "path" (initConnectionData cd) =
      some (CValue.str "/druid/v2/sql/") ∧
    List.lookup "scheme" (initConnectionData cd) =
      some (CValue.str "http") ∧
    List.lookup "host" (initConnectionData cd) = some hv ∧
    List.lookup "port" (initConnectionData cd) = some pv ∧
    ∀ k v, List.lookup k cd = some v →
      List.lookup k (initConnectionData cd) = some v := by
  have preserve : ∀ k v, List.lookup k cd = some v →
      List.lookup k (initConnectionData cd) = some v := by
    intro k v h
    unfold initConnectionData
    exact lookup_setIfAbsent_of_some _ _ _ _ _
      (lookup_setIfAbsent_of_some _ _ _ _ _
        (lookup_setIfAbsent_of_some _ _ _ _ _
          (lookup_setIfAbsent_of_some _ _ _ _ _ h)))
  refine ⟨?_, ?_, ?_, ?_, preserve _ _ hhost, preserve _ _ hport, preserve⟩
  · unfold initConnectionData
    exact lookup_setIfAbsent_of_some _ _ _ _ _
      (lookup_setIfAbsent_of_some _ _ _ _ _
        (lookup_setIfAbsent_of_some _ _ _ _ _
          (lookup_setIfAbsent_self_of_none _ _ _ hu)))
  · unfold initConnectionData
    exact lookup_setIfAbsent_of_some _ _ _ _ _
      (lookup_setIfAbsent_of_some _ _ _ _ _
        (lookup_setIfAbsent_self_of_none _ _ _
          (lookup_setIfAbsent_of_ne_none _ _ _ _ (by decide) hp)))
  · unfold initConnectionData
    exact lookup_setIfAbsent_of_some _ _ _ _ _
      (lookup_setIfAbsent_self_of_none _ _ _
        (lookup_setIfAbsent_of_ne_none _ _ _ _ (by decide)
          (lookup_setIfAbsent_of_ne_none _ _ _ _ (by decide) hpath)))
  · unfold initConnectionData
    exact lookup_setIfAbsent_self_of_none _ _ _
      (lookup_setIfAbsent_of_ne_none _ _ _ _ (by decide)
        (lookup_setIfAbsent_of_ne_none _ _ _ _ (by decide)
          (lookup_setIfAbsent_of_ne_none _ _ _ _ (by decide) hs)))

/-- C9 witness: the documented example configuration holding only host
and port. -/
theorem C9_witness :
    List.lookup "user" (initConnectionData hostPortConfig) = some CValue.null ∧
    List.lookup "password" (initConnectionData hostPortConfig) = some CValue.null ∧
    List.lookup "path" (initConnectionData hostPortConfig) =
      some (CValue.str "/druid/v2/sql/") ∧
    List.lookup "scheme" (initConnectionData hostPortConfig) =
      some (CValue.str "http") ∧
    List.lookup "host" (initConnectionData hostPortConfig) =
      some (CValue.str "localhost") ∧
    List.lookup "port" (initConnectionData hostPortConfig) =
      some (CValue.int 8888) ∧
    ∀ k v, List.lookup k hostPortConfig = some v →
      List.lookup k (initConnectionData hostPortConfig) = some v :=
  C9_init_defaults hostPortConfig (CValue.str "localhost") (CValue.int 8888)
    rfl rfl rfl rfl rfl rfl

/-- C2 counterexample: with a cursor that raises on execute, the raw
query executor returns an `ERROR` envelope, but `get_tables` does not
return that envelope to its caller — subscripting the envelope's absent
data frame raises instead. -/
theorem C2_counterexample :
    (DruidHandler.native_query dExecErr sDis tablesQuery).res =
      Except.ok { resp_type := RESPONSE_TYPE.ERROR,
                  error_message := some "boom" } ∧
    (DruidHandler.get_tables dExecErr sDis).res ≠
      Except.ok { resp_type := RESPONSE_TYPE.ERROR,
                  error_message := some "boom" } := by
  constructor
  · rfl
  · intro hcontra
    have hres : (DruidHandler.get_tables dExecErr sDis).res =
        Except.error "TypeError: NoneType object is not subscriptable" := rfl
    rw [hres] at hcontra
    exact Except.noConfusion hcontra

/-- C2 (amended): when the underlying raw query executor returns an
`ERROR` envelope (whose data frame is absent), `get_tables` raises a
`TypeError` from subscripting the absent data frame, instead of
returning the envelope to its caller. -/
theorem C2_amended_get_tables_raises (d : Driver) (s : HState) (m : String)
    (h : (DruidHandler.native_query d s tablesQuery).res =
      Except.ok { resp_type := RESPONSE_TYPE.ERROR,
                  error_message := some m }) :
    (DruidHandler.get_tables d s).res =
      Except.error "TypeError: NoneType object is not subscriptable" := by
  simp [DruidHandler.get_tables, h]

/-- C2 (amended) witness: the concrete failing execute. -/
theorem C2_amended_witness :
    (DruidHandler.get_tables dExecErr sDis).res =
      Except.error "TypeError: NoneType object is not subscriptable" :=
  C2_amended_get_tables_raises dExecErr sDis "boom" rfl
